import Mathlib

/-!
Verification of the quantrocket-client repository (files `quantrocket/db.py`
and `quantrocket/cli/subcommands/realtime.py`) against its natural-language
specification.

Conventions of the shallow embedding:
* Python dicts built in insertion order are modelled as ordered association
  lists `List (String × PVal)`.
* An optional string parameter whose Python default is `None` is modelled as
  a `String`, with `""` standing for an omitted/`None` argument: the source
  only ever tests such parameters for truthiness (`if services:`), under
  which `None` and `""` are indistinguishable, and otherwise uses the value
  verbatim.
* An optional list parameter (`None` or a list) is modelled as a
  `List String`, with `[]` standing for `None` (same truthiness argument).
* Issuing a network call is modelled as producing a `Request` value; a
  function that fails before building its `Request` returns
  `Except.error _` and therefore performs no network call.
* An HTTP response is a status, a raw body string (`content`, empty for a
  204 no-content response) and the result of attempting to parse the body
  as JSON (`jsonBody`, `none` when the body is not valid JSON, in
  particular when it is empty). `HttpResponse.json` models the
  `response.json()` call of the underlying requests library, which raises
  a decode error when the body is not valid JSON.
-/

/-- Parameter / payload values appearing in request dictionaries. -/
inductive PVal where
  | str (s : String)
  | list (xs : List String)
  | ints (xs : List Int)
  | bool (b : Bool)
deriving DecidableEq

/-- HTTP method of a request. -/
inductive Method where
  | GET
  | PUT
  | POST
  | DELETE
deriving DecidableEq

/-- An outgoing HTTP request: method, path and the query/body parameters. -/
structure Request where
  method : Method
  path : String
  params : List (String × PVal)
deriving DecidableEq

/-- The client-side error taxonomy (spec section 7): `validationError` is
raised locally before any network call, `remoteServiceError` carries the
status and message of a non-2xx response, and `jsonDecodeError` models the
decode failure raised by `response.json()` on a non-JSON body. -/
inductive QrError where
  | validationError (msg : String)
  | remoteServiceError (status : Nat) (msg : String)
  | jsonDecodeError
deriving DecidableEq

/-- JSON values (for response bodies). -/
inductive JVal where
  | null
  | bool (b : Bool)
  | num (n : Int)
  | str (s : String)
  | arr (xs : List JVal)
  | obj (kvs : List (String × JVal))

/-- An HTTP response as seen by the client. -/
structure HttpResponse where
  status : Nat
  content : String
  jsonBody : Option JVal

/-- Whether a parameter dictionary contains a given key. -/
def hasKey (k : String) (ps : List (String × PVal)) : Bool :=
  ps.any (fun p => p.1 == k)

/-- A conditional dictionary entry: `if b: params[k] = v` in Python. -/
def optEntry (b : Bool) (k : String) (v : PVal) : List (String × PVal) :=
  if b then [(k, v)] else []

theorem hasKey_append (k : String) (ps qs : List (String × PVal)) :
    hasKey k (ps ++ qs) = (hasKey k ps || hasKey k qs) := by
  simp [hasKey]

theorem hasKey_optEntry (k k' : String) (b : Bool) (v : PVal) :
    hasKey k (optEntry b k' v) = (b && (k' == k)) := by
  cases b <;> simp [hasKey, optEntry]

/-- Parameter dict built by `list_databases` (db.py lines 54-62). -/
def list_databases_params (services : String) (codes : List String)
    (detail expand : Bool) : List (String × PVal) :=
  optEntry (!services.isEmpty) "services" (PVal.str services)
  ++ optEntry (!codes.isEmpty) "codes" (PVal.list codes)
  ++ optEntry detail "detail" (PVal.bool detail)
  ++ optEntry expand "expand" (PVal.bool expand)

/-- Request issued by `list_databases`: `houston.get("/db/databases", params=params)`. -/
def list_databases_request (services : String) (codes : List String)
    (detail expand : Bool) : Request :=
  { method := Method.GET
    path := "/db/databases"
    params := list_databases_params services codes detail expand }

/-- Request issued by `get_s3_config`: `houston.get("/db/s3config")`. -/
def get_s3_config_request : Request :=
  { method := Method.GET, path := "/db/s3config", params := [] }

/-- Data dict built by `set_s3_config` (db.py lines 122-130), after the
interactive-prompt step has already fixed the value of
`secret_access_key`. -/
def set_s3_config_payload (access_key_id secret_access_key bucket region : String) :
    List (String × PVal) :=
  optEntry (!access_key_id.isEmpty) "access_key_id" (PVal.str access_key_id)
  ++ optEntry (!secret_access_key.isEmpty) "secret_access_key" (PVal.str secret_access_key)
  ++ optEntry (!bucket.isEmpty) "bucket" (PVal.str bucket)
  ++ optEntry (!region.isEmpty) "region" (PVal.str region)

/-- Data dict built by `set_s3_config` (db.py lines 119-130), including the
prompt step: when `access_key_id` is truthy and `secret_access_key` is
falsy, `secret_access_key` is replaced by the value read from the
interactive `getpass` prompt (modelled as the extra argument `prompted`)
before the dict is built. -/
def set_s3_config_data (access_key_id secret_access_key bucket region prompted : String) :
    List (String × PVal) :=
  let secret :=
    if !access_key_id.isEmpty && secret_access_key.isEmpty then prompted
    else secret_access_key
  set_s3_config_payload access_key_id secret bucket region

/-- Request issued by `set_s3_config`: `houston.put("/db/s3config", data=data)`. -/
def set_s3_config_request (access_key_id secret_access_key bucket region prompted : String) :
    Request :=
  { method := Method.PUT
    path := "/db/s3config"
    params := set_s3_config_data access_key_id secret_access_key bucket region prompted }

/-- Parameter dict built by `s3_push_databases` (db.py lines 162-166). -/
def s3_push_databases_params (services codes : List String) : List (String × PVal) :=
  optEntry (!services.isEmpty) "services" (PVal.list services)
  ++ optEntry (!codes.isEmpty) "codes" (PVal.list codes)

/-- Request issued by `s3_push_databases`: `houston.put("/db/s3", params=params)`. -/
def s3_push_databases_request (services codes : List String) : Request :=
  { method := Method.PUT
    path := "/db/s3"
    params := s3_push_databases_params services codes }

/-- Parameter dict built by `s3_pull_databases` (db.py lines 197-203). -/
def s3_pull_databases_params (services codes : List String) (force : Bool) :
    List (String × PVal) :=
  optEntry (!services.isEmpty) "services" (PVal.list services)
  ++ optEntry (!codes.isEmpty) "codes" (PVal.list codes)
  ++ optEntry force "force" (PVal.bool force)

/-- Request issued by `s3_pull_databases`: `houston.get("/db/s3", params=params)`. -/
def s3_pull_databases_request (services codes : List String) (force : Bool) : Request :=
  { method := Method.GET
    path := "/db/s3"
    params := s3_pull_databases_params services codes force }

/-- Parameter dict built by `optimize_databases` (db.py lines 231-235);
note the source inserts `codes` before `services` here. -/
def optimize_databases_params (services codes : List String) : List (String × PVal) :=
  optEntry (!codes.isEmpty) "codes" (PVal.list codes)
  ++ optEntry (!services.isEmpty) "services" (PVal.list services)

/-- Request issued by `optimize_databases`: `houston.post("/db/optimizations", params=params)`. -/
def optimize_databases_request (services codes : List String) : Request :=
  { method := Method.POST
    path := "/db/optimizations"
    params := optimize_databases_params services codes }

/-- Whether an HTTP status code counts as a success (2xx). -/
def is2xx (status : Nat) : Bool :=
  200 ≤ status && status < 300

/-- First string value bound to `key` in a JSON object's entry list. -/
def lookupStr (kvs : List (String × JVal)) (key : String) : Option String :=
  match kvs with
  | [] => none
  | (k, v) :: rest =>
    if k == key then
      match v with
      | JVal.str s => some s
      | _ => none
    else lookupStr rest key

/-- Modelled from the spec: `houston.raise_for_status_with_json` lives in
`quantrocket.houston`, which is not part of the two source files under
review; every function in db.py calls it on the response before decoding.
Per the spec's Error Mapper contract, if the status is non-2xx it extracts
the JSON `error` field when present and raises
`RemoteServiceError{status, message}`, otherwise it raises
`RemoteServiceError{status, raw_body}`; a 2xx response passes through. -/
def raise_for_status_with_json (r : HttpResponse) : Except QrError Unit :=
  if is2xx r.status then Except.ok ()
  else
    match r.jsonBody with
    | some (JVal.obj kvs) =>
      match lookupStr kvs "error" with
      | some msg => Except.error (QrError.remoteServiceError r.status msg)
      | none => Except.error (QrError.remoteServiceError r.status r.content)
    | _ => Except.error (QrError.remoteServiceError r.status r.content)

/-- `response.json()` of the underlying HTTP library: returns the parsed
JSON body, raising a decode error when the body is not valid JSON (in
particular when it is empty). -/
def HttpResponse.json (r : HttpResponse) : Except QrError JVal :=
  match r.jsonBody with
  | some v => Except.ok v
  | none => Except.error QrError.jsonDecodeError

/-- Response handling of `list_databases` (db.py lines 64-66):
`raise_for_status_with_json(response)` then `return response.json()`. -/
def list_databases_decode (r : HttpResponse) : Except QrError JVal :=
  match raise_for_status_with_json r with
  | Except.error e => Except.error e
  | Except.ok _ => r.json

/-- Response handling of `get_s3_config` (db.py lines 82-87):
`raise_for_status_with_json(response)`, then `if not response.content:
return {}`, then `return response.json()`. Only this operation has the
empty-body (204) special case. -/
def get_s3_config_decode (r : HttpResponse) : Except QrError JVal :=
  match raise_for_status_with_json r with
  | Except.error e => Except.error e
  | Except.ok _ =>
    if r.content.isEmpty then Except.ok (JVal.obj [])
    else r.json

/-- Response handling of `set_s3_config` (db.py lines 132-134). -/
def set_s3_config_decode (r : HttpResponse) : Except QrError JVal :=
  match raise_for_status_with_json r with
  | Except.error e => Except.error e
  | Except.ok _ => r.json

/-- Response handling of `s3_push_databases` (db.py lines 167-169): no
empty-body special case, the body goes straight to `response.json()`. -/
def s3_push_databases_decode (r : HttpResponse) : Except QrError JVal :=
  match raise_for_status_with_json r with
  | Except.error e => Except.error e
  | Except.ok _ => r.json

/-- Response handling of `s3_pull_databases` (db.py lines 204-206). -/
def s3_pull_databases_decode (r : HttpResponse) : Except QrError JVal :=
  match raise_for_status_with_json r with
  | Except.error e => Except.error e
  | Except.ok _ => r.json

/-- Response handling of `optimize_databases` (db.py lines 236-238). -/
def optimize_databases_decode (r : HttpResponse) : Except QrError JVal :=
  match raise_for_status_with_json r with
  | Except.error e => Except.error e
  | Except.ok _ => r.json

/-- Modelled from the spec: the typed operation `quantrocket.realtime.drop_db`
is not part of the two source files under review (the CLI parser in
realtime.py lines 185-204 declares its arguments and dispatches to it).
Per the spec, the operation requires the caller to repeat the database code
as a confirmation value; if the repeated value does not match the target
code it fails locally with `ValidationError` before calling the network,
otherwise it issues `DELETE /realtime/config/{code}`. -/
def drop_db (code confirm_by_typing_db_code_again : String) (cascade : Bool) :
    Except QrError Request :=
  if confirm_by_typing_db_code_again = code then
    Except.ok
      { method := Method.DELETE
        path := "/realtime/config/" ++ code
        params := optEntry cascade "cascade" (PVal.bool cascade) }
  else
    Except.error (QrError.validationError
      "confirm-by-typing-db-code-again does not match code")

/-- Modelled from the spec: the typed operation
`quantrocket.realtime.collect_market_data` is not part of the two source
files under review (the CLI parser in realtime.py lines 230-274 declares
its arguments and dispatches to it). Per the spec, `wait` requires
`snapshot`: with `wait` and no `snapshot` the operation fails with
`ValidationError` before any network call; otherwise it issues
`POST /realtime/collections` with the non-empty parameters. -/
def collect_market_data (codes conids universes fields : List String)
    (until_ : String) (snapshot wait : Bool) : Except QrError Request :=
  if wait && !snapshot then
    Except.error (QrError.validationError "wait requires snapshot")
  else
    Except.ok
      { method := Method.POST
        path := "/realtime/collections"
        params :=
          optEntry (!codes.isEmpty) "codes" (PVal.list codes)
          ++ optEntry (!conids.isEmpty) "conids" (PVal.list conids)
          ++ optEntry (!universes.isEmpty) "universes" (PVal.list universes)
          ++ optEntry (!fields.isEmpty) "fields" (PVal.list fields)
          ++ optEntry (!until_.isEmpty) "until" (PVal.str until_)
          ++ optEntry snapshot "snapshot" (PVal.bool snapshot)
          ++ optEntry wait "wait" (PVal.bool wait) }

/-!
CLI argument parsing (realtime.py). The argparse declarations are embedded
as one state-machine parser per subcommand: the state records which
`nargs="*"` flag (or single-value flag) is currently consuming values, a
token starting with `-` always switches to the flag it names (or is
rejected as unrecognized), and any other token goes to the pending flag,
or to the positional argument when no flag is pending. Each parser covers
exactly the flags declared for its subcommand in the source, including
`type=int` conversions (`pyInt`), `choices`, `store_true`/`store_const`
actions and required arguments.
-/

/-- Whether argparse treats a token as an option string (it starts with
`-`; none of these parsers define numeric-looking option strings, and no
claim exercises negative-number tokens). -/
def isFlag (t : String) : Bool :=
  match t.data with
  | [] => false
  | c :: _ => c == '-'

/-- Whether Python's `int()` strips this character as surrounding
whitespace: on the ASCII range that is exactly 0x09-0x0D (tab through
carriage return) and 0x20 (space), checked against the interpreter. -/
def isPySpace (c : Char) : Bool :=
  (9 ≤ c.toNat && c.toNat ≤ 13) || c.toNat == 32

/-- Whether a character is ASCII (code point at most 0x7F). -/
def isAscii (c : Char) : Bool :=
  c.toNat ≤ 127

/-- Strip leading and trailing `int()` whitespace. -/
def stripPySpace (cs : List Char) : List Char :=
  ((cs.dropWhile isPySpace).reverse.dropWhile isPySpace).reverse

/-- Digit tail after a first digit has been read: decimal digits, where an
underscore is allowed only between two digits (Python's digit-group rule:
each underscore must be both preceded and followed by a digit, so no
leading, trailing or doubled underscores). -/
def pyDigitsAux : List Char → Nat → Option Nat
  | [], acc => some acc
  | '_' :: c :: cs, acc =>
    if c.isDigit then pyDigitsAux cs (acc * 10 + (c.toNat - 48)) else none
  | ['_'], _ => none
  | c :: cs, acc =>
    if c.isDigit then pyDigitsAux cs (acc * 10 + (c.toNat - 48)) else none

/-- A digit run with optional single underscore separators between digits;
`none` when there is no leading digit. -/
def pyDigits : List Char → Option Nat
  | [] => none
  | c :: cs => if c.isDigit then pyDigitsAux cs (c.toNat - 48) else none

/-- Python's `int(token)` as applied by argparse `type=int`, exact on ASCII
tokens: surrounding whitespace (`isPySpace`) is stripped, then an optional
ASCII sign precedes a run of decimal digits that may use single
underscores as group separators; anything else raises `ValueError`, which
argparse turns into an `invalid int value` parse error. Python also
accepts non-ASCII decimal digits (Unicode category Nd); those tokens are
outside this model, and the theorem that quantifies over parse failures
restricts itself to ASCII tokens accordingly. -/
def pyInt (s : String) : Option Int :=
  match stripPySpace s.data with
  | [] => none
  | '-' :: rest => (pyDigits rest).map (fun n => -(n : Int))
  | '+' :: rest => (pyDigits rest).map (fun n => (n : Int))
  | cs => (pyDigits cs).map (fun n => (n : Int))

/-- Parsed namespace of the `create-tick-db` subcommand
(realtime.py lines 38-73). -/
structure TickDbNs where
  code : Option String := none
  universes : List String := []
  conids : List String := []
  vendor : Option String := none
  fields : List String := []
  primary_exchange : Bool := false
deriving DecidableEq

/-- Pending-flag state while parsing `create-tick-db` arguments. -/
inductive TickMode where
  | top
  | universes
  | conids
  | fields
  | vendorVal
deriving DecidableEq

/-- Parser state machine for the `create-tick-db` subcommand: positional
`code`; `-u / --universes`, `-i / --conids`, `-f / --fields` with `nargs="*"`
(untyped, so values stay strings); `-v / --vendor` with `choices=["ib"]`;
`-p / --primary-exchange` with `action="store_true"`. -/
def parseTickDbAux : List String → TickMode → TickDbNs → Except String TickDbNs
  | [], m, ns =>
    match m with
    | TickMode.vendorVal => Except.error "argument -v/--vendor: expected one argument"
    | _ =>
      match ns.code with
      | some _ => Except.ok ns
      | none => Except.error "the following arguments are required: CODE"
  | t :: ts, m, ns =>
    if isFlag t then
      if t == "-u" || t == "--universes" then parseTickDbAux ts TickMode.universes ns
      else if t == "-i" || t == "--conids" then parseTickDbAux ts TickMode.conids ns
      else if t == "-f" || t == "--fields" then parseTickDbAux ts TickMode.fields ns
      else if t == "-v" || t == "--vendor" then parseTickDbAux ts TickMode.vendorVal ns
      else if t == "-p" || t == "--primary-exchange" then
        parseTickDbAux ts TickMode.top { ns with primary_exchange := true }
      else Except.error ("unrecognized arguments: " ++ t)
    else
      match m with
      | TickMode.universes => parseTickDbAux ts m { ns with universes := ns.universes ++ [t] }
      | TickMode.conids => parseTickDbAux ts m { ns with conids := ns.conids ++ [t] }
      | TickMode.fields => parseTickDbAux ts m { ns with fields := ns.fields ++ [t] }
      | TickMode.vendorVal =>
        if t == "ib" then parseTickDbAux ts TickMode.top { ns with vendor := some t }
        else Except.error ("argument -v/--vendor: invalid choice: " ++ t)
      | TickMode.top =>
        match ns.code with
        | none => parseTickDbAux ts TickMode.top { ns with code := some t }
        | some _ => Except.error ("unrecognized arguments: " ++ t)

/-- Parse a `create-tick-db` command line. -/
def parseTickDb (ts : List String) : Except String TickDbNs :=
  parseTickDbAux ts TickMode.top {}

/-- Parsed namespace of the `collect` subcommand (realtime.py lines 230-274). -/
structure CollectNs where
  codes : List String := []
  conids : List String := []
  universes : List String := []
  fields : List String := []
  until_ : Option String := none
  snapshot : Bool := false
  wait : Bool := false
deriving DecidableEq

/-- Pending-flag state while parsing `collect` arguments. -/
inductive CollectMode where
  | top
  | conids
  | universes
  | fields
  | untilVal
deriving DecidableEq

/-- Parser state machine for the `collect` subcommand: positional `codes`
with `nargs="+"`; `-i / --conids`, `-u / --universes`, `-f / --fields` with
`nargs="*"` (untyped, so values stay strings); `--until` with a single
value; `-s / --snapshot` and `-w / --wait` with `action="store_true"`. -/
def parseCollectAux : List String → CollectMode → CollectNs → Except String CollectNs
  | [], m, ns =>
    match m with
    | CollectMode.untilVal => Except.error "argument --until: expected one argument"
    | _ =>
      if ns.codes.isEmpty then Except.error "the following arguments are required: CODE"
      else Except.ok ns
  | t :: ts, m, ns =>
    if isFlag t then
      if t == "-i" || t == "--conids" then parseCollectAux ts CollectMode.conids ns
      else if t == "-u" || t == "--universes" then parseCollectAux ts CollectMode.universes ns
      else if t == "-f" || t == "--fields" then parseCollectAux ts CollectMode.fields ns
      else if t == "--until" then parseCollectAux ts CollectMode.untilVal ns
      else if t == "-s" || t == "--snapshot" then
        parseCollectAux ts CollectMode.top { ns with snapshot := true }
      else if t == "-w" || t == "--wait" then
        parseCollectAux ts CollectMode.top { ns with wait := true }
      else Except.error ("unrecognized arguments: " ++ t)
    else
      match m with
      | CollectMode.conids => parseCollectAux ts m { ns with conids := ns.conids ++ [t] }
      | CollectMode.universes => parseCollectAux ts m { ns with universes := ns.universes ++ [t] }
      | CollectMode.fields => parseCollectAux ts m { ns with fields := ns.fields ++ [t] }
      | CollectMode.untilVal => parseCollectAux ts CollectMode.top { ns with until_ := some t }
      | CollectMode.top => parseCollectAux ts CollectMode.top { ns with codes := ns.codes ++ [t] }

/-- Parse a `collect` command line. -/
def parseCollect (ts : List String) : Except String CollectNs :=
  parseCollectAux ts CollectMode.top {}

/-- Parsed namespace of the `cancel` subcommand (realtime.py lines 307-332). -/
structure CancelNs where
  codes : List String := []
  conids : List String := []
  universes : List String := []
  cancel_all : Bool := false
deriving DecidableEq

/-- Pending-flag state while parsing `cancel` arguments. -/
inductive CancelMode where
  | top
  | conids
  | universes
deriving DecidableEq

/-- Parser state machine for the `cancel` subcommand: positional `codes`
with `nargs="*"`; `-i / --conids`, `-u / --universes` with `nargs="*"`
(untyped, so values stay strings); `-a / --all` with `action="store_true"`
(dest `cancel_all`). -/
def parseCancelAux : List String → CancelMode → CancelNs → Except String CancelNs
  | [], _, ns => Except.ok ns
  | t :: ts, m, ns =>
    if isFlag t then
      if t == "-i" || t == "--conids" then parseCancelAux ts CancelMode.conids ns
      else if t == "-u" || t == "--universes" then parseCancelAux ts CancelMode.universes ns
      else if t == "-a" || t == "--all" then
        parseCancelAux ts CancelMode.top { ns with cancel_all := true }
      else Except.error ("unrecognized arguments: " ++ t)
    else
      match m with
      | CancelMode.conids => parseCancelAux ts m { ns with conids := ns.conids ++ [t] }
      | CancelMode.universes => parseCancelAux ts m { ns with universes := ns.universes ++ [t] }
      | CancelMode.top => parseCancelAux ts CancelMode.top { ns with codes := ns.codes ++ [t] }

/-- Parse a `cancel` command line. -/
def parseCancel (ts : List String) : Except String CancelNs :=
  parseCancelAux ts CancelMode.top {}

/-- Parsed namespace of the `get` subcommand (realtime.py lines 343-408).
`conids` and `exclude_conids` are lists of integers because the source
declares those two flags with `type=int`. -/
structure GetNs where
  code : Option String := none
  start_date : Option String := none
  end_date : Option String := none
  universes : List String := []
  conids : List Int := []
  exclude_universes : List String := []
  exclude_conids : List Int := []
  filepath_or_buffer : Option String := none
  output : Option String := none
  fields : List String := []
deriving DecidableEq

/-- Pending-flag state while parsing `get` arguments. -/
inductive GetMode where
  | top
  | universes
  | conids
  | exclUniverses
  | exclConids
  | fields
  | startVal
  | endVal
  | outVal
deriving DecidableEq

/-- Parser state machine for the `get` subcommand: positional `code`;
`-s / --start-date`, `-e / --end-date`, `-o / --outfile` with a single value;
`-u / --universes`, `--exclude-universes`, `-f / --fields` with `nargs="*"`;
`-i / --conids` and `--exclude-conids` with `nargs="*"` and `type=int`
(each value goes through `pyInt`, a failure is an argparse error);
`-j / --json` with `action="store_const"`, `const="json"`, dest `output`. -/
def parseGetAux : List String → GetMode → GetNs → Except String GetNs
  | [], m, ns =>
    match m with
    | GetMode.startVal => Except.error "argument -s/--start-date: expected one argument"
    | GetMode.endVal => Except.error "argument -e/--end-date: expected one argument"
    | GetMode.outVal => Except.error "argument -o/--outfile: expected one argument"
    | _ =>
      match ns.code with
      | some _ => Except.ok ns
      | none => Except.error "the following arguments are required: CODE"
  | t :: ts, m, ns =>
    if isFlag t then
      if t == "-s" || t == "--start-date" then parseGetAux ts GetMode.startVal ns
      else if t == "-e" || t == "--end-date" then parseGetAux ts GetMode.endVal ns
      else if t == "-u" || t == "--universes" then parseGetAux ts GetMode.universes ns
      else if t == "-i" || t == "--conids" then parseGetAux ts GetMode.conids ns
      else if t == "--exclude-universes" then parseGetAux ts GetMode.exclUniverses ns
      else if t == "--exclude-conids" then parseGetAux ts GetMode.exclConids ns
      else if t == "-o" || t == "--outfile" then parseGetAux ts GetMode.outVal ns
      else if t == "-j" || t == "--json" then
        parseGetAux ts GetMode.top { ns with output := some "json" }
      else if t == "-f" || t == "--fields" then parseGetAux ts GetMode.fields ns
      else Except.error ("unrecognized arguments: " ++ t)
    else
      match m with
      | GetMode.startVal => parseGetAux ts GetMode.top { ns with start_date := some t }
      | GetMode.endVal => parseGetAux ts GetMode.top { ns with end_date := some t }
      | GetMode.outVal => parseGetAux ts GetMode.top { ns with filepath_or_buffer := some t }
      | GetMode.universes => parseGetAux ts m { ns with universes := ns.universes ++ [t] }
      | GetMode.exclUniverses =>
        parseGetAux ts m { ns with exclude_universes := ns.exclude_universes ++ [t] }
      | GetMode.fields => parseGetAux ts m { ns with fields := ns.fields ++ [t] }
      | GetMode.conids =>
        match pyInt t with
        | some n => parseGetAux ts m { ns with conids := ns.conids ++ [n] }
        | none => Except.error ("argument -i/--conids: invalid int value: " ++ t)
      | GetMode.exclConids =>
        match pyInt t with
        | some n => parseGetAux ts m { ns with exclude_conids := ns.exclude_conids ++ [n] }
        | none => Except.error ("argument --exclude-conids: invalid int value: " ++ t)
      | GetMode.top =>
        match ns.code with
        | none => parseGetAux ts GetMode.top { ns with code := some t }
        | some _ => Except.error ("unrecognized arguments: " ++ t)

/-- Parse a `get` command line. -/
def parseGet (ts : List String) : Except String GetNs :=
  parseGetAux ts GetMode.top {}

/-- Modelled from the spec: the typed operation
`quantrocket.realtime.create_tick_db` is not part of the two source files
under review (the CLI parser in realtime.py lines 38-73 declares its
arguments and dispatches to it). Per the spec, it collects only the
non-empty optional parameters, together with the required `code`, into
the request payload for `POST /realtime/config/{code}`. -/
def create_tick_db_payload (ns : TickDbNs) : List (String × PVal) :=
  [("code", PVal.str (ns.code.getD ""))]
  ++ optEntry (!ns.universes.isEmpty) "universes" (PVal.list ns.universes)
  ++ optEntry (!ns.conids.isEmpty) "conids" (PVal.list ns.conids)
  ++ (match ns.vendor with
      | some v => [("vendor", PVal.str v)]
      | none => [])
  ++ optEntry (!ns.fields.isEmpty) "fields" (PVal.list ns.fields)
  ++ optEntry ns.primary_exchange "primary_exchange" (PVal.bool ns.primary_exchange)

/-- Modelled from the spec: the typed operation
`quantrocket.realtime.download_market_data_file` is not part of the two
source files under review (the CLI parser in realtime.py lines 343-408
declares its arguments and dispatches to it). Per the spec, the download
issues `GET /realtime/{code}.csv` or `GET /realtime/{code}.json` — output
format is CSV by default and JSON if requested — with the non-empty query
filters as parameters. -/
def download_market_data_file_request (ns : GetNs) : Request :=
  { method := Method.GET
    path := "/realtime/" ++ ns.code.getD "" ++ "." ++ ns.output.getD "csv"
    params :=
      (match ns.start_date with
       | some s => [("start_date", PVal.str s)]
       | none => [])
      ++ (match ns.end_date with
          | some s => [("end_date", PVal.str s)]
          | none => [])
      ++ optEntry (!ns.universes.isEmpty) "universes" (PVal.list ns.universes)
      ++ optEntry (!ns.conids.isEmpty) "conids" (PVal.ints ns.conids)
      ++ optEntry (!ns.exclude_universes.isEmpty) "exclude_universes"
          (PVal.list ns.exclude_universes)
      ++ optEntry (!ns.exclude_conids.isEmpty) "exclude_conids"
          (PVal.ints ns.exclude_conids)
      ++ optEntry (!ns.fields.isEmpty) "fields" (PVal.list ns.fields) }

/-- C1: whenever the `drop-db` confirmation value differs from the target
database code, the operation fails locally with `ValidationError`; the
result is an error rather than a `Request`, so no network call is
issued. -/
theorem drop_db_confirmation_mismatch (code confirm : String) (cascade : Bool)
    (h : confirm ≠ code) :
    drop_db code confirm cascade
      = Except.error (QrError.validationError
          "confirm-by-typing-db-code-again does not match code") := by
  simp [drop_db, h]

/-- C1 witness: dropping `usa-stk-trades` while typing `usa-stk` as the
confirmation fails with `ValidationError`. -/
theorem drop_db_confirmation_mismatch_witness :
    ("usa-stk" ≠ "usa-stk-trades")
    ∧ drop_db "usa-stk-trades" "usa-stk" false
      = Except.error (QrError.validationError
          "confirm-by-typing-db-code-again does not match code") :=
  ⟨by decide, drop_db_confirmation_mismatch "usa-stk-trades" "usa-stk" false (by decide)⟩

/-- C2: `collect` invoked with `wait = true` and `snapshot = false` fails
with `ValidationError`; the result is an error rather than a `Request`,
so no network call is issued. -/
theorem collect_wait_requires_snapshot (codes conids universes fields : List String)
    (until_ : String) :
    collect_market_data codes conids universes fields until_ false true
      = Except.error (QrError.validationError "wait requires snapshot") :=
  rfl

/-- C3 counterexample: the claim fails as stated — `s3_push_databases`
(one of the typed operations, and one the claim itself cites) has no
empty-body special case, so a 204 no-content response is passed straight
to `response.json()`, which raises a decode error instead of decoding to
an empty mapping. -/
theorem s3_push_databases_204_raises :
    s3_push_databases_decode { status := 204, content := "", jsonBody := none }
      = Except.error QrError.jsonDecodeError :=
  rfl

/-- C3 (amended): a 204 no-content response decodes to an empty mapping in
`get_s3_config` only (db.py guards `if not response.content: return {}`
there alone); every other db typed operation hands the empty body to the
JSON decoder, which raises a decode error. -/
theorem status_204_decoding (jb : Option JVal) :
    get_s3_config_decode { status := 204, content := "", jsonBody := jb }
      = Except.ok (JVal.obj [])
    ∧ list_databases_decode { status := 204, content := "", jsonBody := none }
      = Except.error QrError.jsonDecodeError
    ∧ set_s3_config_decode { status := 204, content := "", jsonBody := none }
      = Except.error QrError.jsonDecodeError
    ∧ s3_pull_databases_decode { status := 204, content := "", jsonBody := none }
      = Except.error QrError.jsonDecodeError
    ∧ optimize_databases_decode { status := 204, content := "", jsonBody := none }
      = Except.error QrError.jsonDecodeError :=
  ⟨rfl, rfl, rfl, rfl, rfl⟩

/-- C4: every non-2xx response whose JSON body carries a string `error`
field makes each db typed operation raise `RemoteServiceError` with that
response's status and that message. -/
theorem non2xx_error_response (r : HttpResponse) (kvs : List (String × JVal))
    (msg : String) (h1 : is2xx r.status = false)
    (h2 : r.jsonBody = some (JVal.obj kvs))
    (h3 : lookupStr kvs "error" = some msg) :
    list_databases_decode r = Except.error (QrError.remoteServiceError r.status msg)
    ∧ get_s3_config_decode r = Except.error (QrError.remoteServiceError r.status msg)
    ∧ set_s3_config_decode r = Except.error (QrError.remoteServiceError r.status msg)
    ∧ s3_push_databases_decode r = Except.error (QrError.remoteServiceError r.status msg)
    ∧ s3_pull_databases_decode r = Except.error (QrError.remoteServiceError r.status msg)
    ∧ optimize_databases_decode r = Except.error (QrError.remoteServiceError r.status msg) := by
  have hr : raise_for_status_with_json r
      = Except.error (QrError.remoteServiceError r.status msg) := by
    simp [raise_for_status_with_json, h1, h2, h3]
  refine ⟨?_, ?_, ?_, ?_, ?_, ?_⟩ <;>
    simp [list_databases_decode, get_s3_config_decode, set_s3_config_decode,
      s3_push_databases_decode, s3_pull_databases_decode,
      optimize_databases_decode, hr]

/-- C4 witness: a 404 with body `\x7b"error": "not found"\x7d` raises
`RemoteServiceError` with status 404 and message `"not found"`. -/
theorem non2xx_error_response_witness :
    is2xx 404 = false
    ∧ list_databases_decode
        { status := 404
          content := "\x7b\"error\": \"not found\"\x7d"
          jsonBody := some (JVal.obj [("error", JVal.str "not found")]) }
      = Except.error (QrError.remoteServiceError 404 "not found") :=
  ⟨rfl, (non2xx_error_response
      { status := 404
        content := "\x7b\"error\": \"not found\"\x7d"
        jsonBody := some (JVal.obj [("error", JVal.str "not found")]) }
      [("error", JVal.str "not found")] "not found" rfl rfl rfl).1⟩

/-- C5: in every db typed operation, an optional parameter appears in the
constructed payload exactly when its value is truthy — an omitted (falsy)
parameter contributes no key at all. Since `PVal` has no null value and
each present entry carries the caller's own value, absent optional fields
are omitted rather than sent as null. -/
theorem optional_params_omitted (services access_key_id secret_access_key
      bucket region : String)
    (codes push_services push_codes pull_services pull_codes opt_services
      opt_codes : List String)
    (detail expand force : Bool) :
    hasKey "services" (list_databases_params services codes detail expand)
      = !services.isEmpty
    ∧ hasKey "codes" (list_databases_params services codes detail expand)
      = !codes.isEmpty
    ∧ hasKey "detail" (list_databases_params services codes detail expand) = detail
    ∧ hasKey "expand" (list_databases_params services codes detail expand) = expand
    ∧ hasKey "access_key_id"
        (set_s3_config_payload access_key_id secret_access_key bucket region)
      = !access_key_id.isEmpty
    ∧ hasKey "secret_access_key"
        (set_s3_config_payload access_key_id secret_access_key bucket region)
      = !secret_access_key.isEmpty
    ∧ hasKey "bucket"
        (set_s3_config_payload access_key_id secret_access_key bucket region)
      = !bucket.isEmpty
    ∧ hasKey "region"
        (set_s3_config_payload access_key_id secret_access_key bucket region)
      = !region.isEmpty
    ∧ hasKey "services" (s3_push_databases_params push_services push_codes)
      = !push_services.isEmpty
    ∧ hasKey "codes" (s3_push_databases_params push_services push_codes)
      = !push_codes.isEmpty
    ∧ hasKey "services" (s3_pull_databases_params pull_services pull_codes force)
      = !pull_services.isEmpty
    ∧ hasKey "codes" (s3_pull_databases_params pull_services pull_codes force)
      = !pull_codes.isEmpty
    ∧ hasKey "force" (s3_pull_databases_params pull_services pull_codes force)
      = force
    ∧ hasKey "codes" (optimize_databases_params opt_services opt_codes)
      = !opt_codes.isEmpty
    ∧ hasKey "services" (optimize_databases_params opt_services opt_codes)
      = !opt_services.isEmpty := by
  refine ⟨?_, ?_, ?_, ?_, ?_, ?_, ?_, ?_, ?_, ?_, ?_, ?_, ?_, ?_, ?_⟩ <;>
    simp [list_databases_params, set_s3_config_payload, s3_push_databases_params,
      s3_pull_databases_params, optimize_databases_params,
      hasKey_append, hasKey_optEntry]

/-- C6: the CLI invocation `create-tick-db usa-stk-trades -u usa-stk -f last
volume` parses successfully and its request payload is exactly
`code = "usa-stk-trades"`, `universes = ["usa-stk"]`,
`fields = ["last", "volume"]`, with the list-valued flags kept in argument
order. -/
theorem create_tick_db_roundtrip :
    (parseTickDb ["usa-stk-trades", "-u", "usa-stk", "-f", "last", "volume"]).map
        create_tick_db_payload
      = Except.ok [("code", PVal.str "usa-stk-trades"),
          ("universes", PVal.list ["usa-stk"]),
          ("fields", PVal.list ["last", "volume"])] :=
  rfl

/-- C7: the db typed operations follow the REST convention —
`list_databases` issues GET /db/databases, `get_s3_config` GET and
`set_s3_config` PUT on /db/s3config, `s3_push_databases` PUT and
`s3_pull_databases` GET on /db/s3, and `optimize_databases`
POST /db/optimizations. -/
theorem db_rest_methods (services access_key_id secret_access_key bucket region
      prompted : String)
    (codes push_services push_codes pull_services pull_codes opt_services
      opt_codes : List String)
    (detail expand force : Bool) :
    (list_databases_request services codes detail expand).method = Method.GET
    ∧ (list_databases_request services codes detail expand).path = "/db/databases"
    ∧ get_s3_config_request.method = Method.GET
    ∧ get_s3_config_request.path = "/db/s3config"
    ∧ (set_s3_config_request access_key_id secret_access_key bucket region
        prompted).method = Method.PUT
    ∧ (set_s3_config_request access_key_id secret_access_key bucket region
        prompted).path = "/db/s3config"
    ∧ (s3_push_databases_request push_services push_codes).method = Method.PUT
    ∧ (s3_push_databases_request push_services push_codes).path = "/db/s3"
    ∧ (s3_pull_databases_request pull_services pull_codes force).method = Method.GET
    ∧ (s3_pull_databases_request pull_services pull_codes force).path = "/db/s3"
    ∧ (optimize_databases_request opt_services opt_codes).method = Method.POST
    ∧ (optimize_databases_request opt_services opt_codes).path = "/db/optimizations" :=
  ⟨rfl, rfl, rfl, rfl, rfl, rfl, rfl, rfl, rfl, rfl, rfl, rfl⟩

/-- C8: for any database code, the `get` subcommand with `--json` requests
`/realtime/{code}.json` and without it requests `/realtime/{code}.csv`. -/
theorem json_flag_output_format (code : String) (h : isFlag code = false) :
    (parseGet [code, "--json"]).map
        (fun ns => (download_market_data_file_request ns).path)
      = Except.ok ("/realtime/" ++ code ++ "." ++ "json")
    ∧ (parseGet [code]).map
        (fun ns => (download_market_data_file_request ns).path)
      = Except.ok ("/realtime/" ++ code ++ "." ++ "csv") := by
  have hj : isFlag "--json" = true := rfl
  constructor <;>
    simp [parseGet, parseGetAux, h, hj, download_market_data_file_request,
      Except.map]

/-- C8 witness: `get globex-fut-taq --json` requests
`/realtime/globex-fut-taq.json`; without the flag it requests
`/realtime/globex-fut-taq.csv`. -/
theorem json_flag_output_format_witness :
    (parseGet ["globex-fut-taq", "--json"]).map
        (fun ns => (download_market_data_file_request ns).path)
      = Except.ok ("/realtime/" ++ "globex-fut-taq" ++ "." ++ "json")
    ∧ (parseGet ["globex-fut-taq"]).map
        (fun ns => (download_market_data_file_request ns).path)
      = Except.ok ("/realtime/" ++ "globex-fut-taq" ++ "." ++ "csv") :=
  json_flag_output_format "globex-fut-taq" rfl

/-- C9: in `set_s3_config`, when `access_key_id` is truthy and
`secret_access_key` is falsy, the secret used to build the payload is the
value read from the interactive prompt; consequently, whenever the payload
contains `access_key_id` and the prompted value is non-empty, it also
contains `secret_access_key`. -/
theorem set_s3_config_prompted_secret (access_key_id secret_access_key bucket
      region prompted : String) :
    (access_key_id.isEmpty = false → secret_access_key.isEmpty = true →
      set_s3_config_data access_key_id secret_access_key bucket region prompted
        = set_s3_config_payload access_key_id prompted bucket region)
    ∧ (hasKey "access_key_id"
        (set_s3_config_data access_key_id secret_access_key bucket region prompted)
          = true →
       prompted.isEmpty = false →
       hasKey "secret_access_key"
        (set_s3_config_data access_key_id secret_access_key bucket region prompted)
          = true) := by
  constructor
  · intro h1 h2
    simp [set_s3_config_data, h1, h2]
  · intro h1 h2
    cases hA : access_key_id.isEmpty <;> cases hS : secret_access_key.isEmpty <;>
      simp [set_s3_config_data, set_s3_config_payload, hasKey_append,
        hasKey_optEntry, hA, hS, h2] at h1 ⊢

/-- C9 witness: with access key `AKIAIOSFODNN7`, no secret and prompted
value `topsecret`, the payload is built from the prompted secret and
contains the `secret_access_key` key. -/
theorem set_s3_config_prompted_secret_witness :
    set_s3_config_data "AKIAIOSFODNN7" "" "" "" "topsecret"
      = set_s3_config_payload "AKIAIOSFODNN7" "topsecret" "" ""
    ∧ hasKey "secret_access_key"
        (set_s3_config_data "AKIAIOSFODNN7" "" "" "" "topsecret") = true :=
  ⟨(set_s3_config_prompted_secret "AKIAIOSFODNN7" "" "" "" "topsecret").1 rfl rfl,
   (set_s3_config_prompted_secret "AKIAIOSFODNN7" "" "" "" "topsecret").2 rfl rfl⟩

/-- C10: only the `get` subcommand converts conid arguments with `type=int`:
a non-integer conid token (restricted to ASCII tokens, on which the
`int()` model is exact) makes `get` fail at argument parsing before any
network call — through `-i / --conids` as well as `--exclude-conids` —
while integer tokens are stored as integers in both destinations; the
same non-integer token is accepted and kept as an unparsed string by the
`create-tick-db`, `collect` and `cancel` subcommands. -/
theorem conid_argument_typing (c s : String) (hc : isFlag c = false)
    (hs : isFlag s = false) (ha : s.data.all isAscii = true)
    (hn : pyInt s = none) :
    parseGet [c, "-i", s]
      = Except.error ("argument -i/--conids: invalid int value: " ++ s)
    ∧ parseGet [c, "--exclude-conids", s]
      = Except.error ("argument --exclude-conids: invalid int value: " ++ s)
    ∧ parseGet ["usa-stk-trades", "-i", "12345", "23456"]
      = Except.ok { code := some "usa-stk-trades", conids := [12345, 23456] }
    ∧ parseGet ["usa-stk-trades", "--exclude-conids", "12345", "23456"]
      = Except.ok { code := some "usa-stk-trades", exclude_conids := [12345, 23456] }
    ∧ parseTickDb [c, "-i", s] = Except.ok { code := some c, conids := [s] }
    ∧ parseCollect [c, "-i", s] = Except.ok { codes := [c], conids := [s] }
    ∧ parseCancel [c, "-i", s] = Except.ok { codes := [c], conids := [s] } := by
  have hi : isFlag "-i" = true := rfl
  have he : isFlag "--exclude-conids" = true := rfl
  refine ⟨?_, ?_, rfl, rfl, ?_, ?_, ?_⟩ <;>
    simp [parseGet, parseGetAux, parseTickDb, parseTickDbAux, parseCollect,
      parseCollectAux, parseCancel, parseCancelAux, hc, hs, hn, hi, he]

/-- C10 witness: `get mydb -i abc` and `get mydb --exclude-conids abc` fail
at parsing, integer conid tokens are parsed into integer lists, and
`create-tick-db`, `collect` and `cancel` accept `abc` as a string conid. -/
theorem conid_argument_typing_witness :
    parseGet ["mydb", "-i", "abc"]
      = Except.error ("argument -i/--conids: invalid int value: " ++ "abc")
    ∧ parseGet ["mydb", "--exclude-conids", "abc"]
      = Except.error ("argument --exclude-conids: invalid int value: " ++ "abc")
    ∧ parseGet ["usa-stk-trades", "-i", "12345", "23456"]
      = Except.ok { code := some "usa-stk-trades", conids := [12345, 23456] }
    ∧ parseGet ["usa-stk-trades", "--exclude-conids", "12345", "23456"]
      = Except.ok { code := some "usa-stk-trades", exclude_conids := [12345, 23456] }
    ∧ parseTickDb ["mydb", "-i", "abc"]
      = Except.ok { code := some "mydb", conids := ["abc"] }
    ∧ parseCollect ["mydb", "-i", "abc"]
      = Except.ok { codes := ["mydb"], conids := ["abc"] }
    ∧ parseCancel ["mydb", "-i", "abc"]
      = Except.ok { codes := ["mydb"], conids := ["abc"] } :=
  conid_argument_typing "mydb" "abc" rfl rfl rfl rfl
